import Mathlib

/-!
Shallow embedding of a terminal Game of Life simulator (single Rust source
file).  The program state is the `Game` struct; the per-iteration engine is
`Game.update`, the neighbor lookup is `Game.is_alive_at`, rendering is
modelled by `Game.print_accesses` / `Game.print_emissions`, and keyboard
dispatch by `Game.handle_input`.

Machine-integer details that matter and are modelled explicitly:
  * `(x + width as i32) as u16` truncates to the low 16 bits; this is
    `u16cast : Int → Nat`, i.e. reduction modulo 2^16 into `[0, 65536)`.
  * `u16` subtraction `n - 1` wraps modulo 2^16 (release build); this is
    `u16sub1`.
Terminal sizes and the stored `width`/`height` are `u16` values in the
source, so they always lie in `[0, 65536)`; theorems carry those bounds as
hypotheses where they matter.  Overflow of the `i32` additions themselves
(only possible for `|x|` near 2^31, far outside any value the program
produces) is not modelled: integer addition is exact here.
-/

/-- Key bound to quitting the program. -/
def QUIT_KEY : Char := 'q'

/-- Key bound to toggling the paused (stop) flag. -/
def STOP_KEY : Char := 's'

/-- Key bound to toggling the detail view. -/
def TOGGLE_VIEW_KEY : Char := 'v'

/-- Key bound to toggling the cell under the cursor. -/
def TOGGLE_CELL_KEY : Char := ' '

/-- Vi-style cursor-up key. -/
def UP_KEY_ALT : Char := 'k'

/-- Vi-style cursor-down key. -/
def DOWN_KEY_ALT : Char := 'j'

/-- Vi-style cursor-left key. -/
def LEFT_KEY_ALT : Char := 'h'

/-- Vi-style cursor-right key. -/
def RIGHT_KEY_ALT : Char := 'l'

/-- Glyph for a living cell in coarse view. -/
def LIVING : Char := '■'

/-- Glyph for a dead cell in coarse view. -/
def DEAD : Char := '□'

/-- Detail-view glyph table, indexed by the 2-bit packed state. -/
def STATE : List Char := [' ', '▀', '▄', '█']

/-- The 8 Moore-neighborhood offsets `(dx, dy)`. -/
def DIRECTIONS : List (Int × Int) :=
  [(-1, -1), (-1, 0), (-1, 1), (0, -1), (0, 1), (1, -1), (1, 0), (1, 1)]

/-- The program state: `field` is the cell matrix indexed `[row][col]`
(`true` is living), `width`/`height` are the last stored terminal size
(`u16` in the source), `stop` is the pause flag, `cursor` is `(x, y)`. -/
structure Game where
  field : List (List Bool)
  width : Nat
  height : Nat
  stop : Bool
  cursor : Nat × Nat
  detail_view : Bool
deriving DecidableEq

/-- The `i32 → u16` truncating cast: keep the low 16 bits. -/
def u16cast (n : Int) : Nat := (n % 65536).toNat

/-- Wrapping `u16` decrement `n - 1` (release-build semantics). -/
def u16sub1 (n : Nat) : Nat := (n + 65535) % 65536

/-- `Game::try_new`: grid sized to the terminal, all dead, paused,
cursor at the origin, coarse view. -/
def Game.try_new (width height : Nat) : Game :=
  { field := List.replicate height (List.replicate width false)
    width := width
    height := height
    stop := true
    cursor := (0, 0)
    detail_view := false }

/-- `Game::is_alive_at`: wrap `(x + width) as u16 % width` (and likewise
for `y`), then read the cell through the `Option`-guarded access, with
`false` for anything out of range of the stored rows. -/
def Game.is_alive_at (g : Game) (x y : Int) : Bool :=
  let nx := u16cast (x + g.width) % g.width
  let ny := u16cast (y + g.height) % g.height
  (g.field.getD ny []).getD nx false

/-- The generation buffer built inside `Game::update`: a fresh
`height × width` matrix, initialized dead, where a cell is set living
exactly when the B3/S23 conditions on the `is_alive_at` lookups hold. -/
def Game.next_field (g : Game) : List (List Bool) :=
  (List.range g.height).map fun (y : Nat) =>
    (List.range g.width).map fun (x : Nat) =>
      let live_neighbors :=
        (DIRECTIONS.filter fun d =>
          g.is_alive_at ((x : Int) + d.1) ((y : Int) + d.2)).length
      if g.is_alive_at (x : Int) (y : Int) then
        decide (live_neighbors = 2) || decide (live_neighbors = 3)
      else
        decide (live_neighbors = 3)

/-- `Game::update`, with the freshly queried terminal size passed in as
`termW × termH`.  When stopped it returns (after printing) without touching
any state; otherwise it replaces `field` by the next generation, stores the
queried terminal size, and clamps the cursor to `min (size - 1)` per axis
(`u16` wrapping subtraction). -/
def Game.update (g : Game) (termW termH : Nat) : Game :=
  if g.stop then g
  else
    { field := g.next_field
      width := termW
      height := termH
      stop := g.stop
      cursor := (min g.cursor.1 (u16sub1 termW), min g.cursor.2 (u16sub1 termH))
      detail_view := g.detail_view }

/-- `Game::toggle_cell`: flip the cell under the cursor. -/
def Game.toggle_cell (g : Game) : Game :=
  { g with
    field :=
      g.field.set g.cursor.2
        ((g.field.getD g.cursor.2 []).set g.cursor.1
          (!(g.field.getD g.cursor.2 []).getD g.cursor.1 false)) }

/-- Cursor-up branch of `Game::handle_input`. -/
def Game.move_up (g : Game) : Game :=
  if 0 < g.cursor.2 then { g with cursor := (g.cursor.1, g.cursor.2 - 1) } else g

/-- Cursor-down branch of `Game::handle_input`. -/
def Game.move_down (g : Game) : Game :=
  if g.cursor.2 < g.height - 1 then { g with cursor := (g.cursor.1, g.cursor.2 + 1) } else g

/-- Cursor-left branch of `Game::handle_input`. -/
def Game.move_left (g : Game) : Game :=
  if 0 < g.cursor.1 then { g with cursor := (g.cursor.1 - 1, g.cursor.2) } else g

/-- Cursor-right branch of `Game::handle_input`. -/
def Game.move_right (g : Game) : Game :=
  if g.cursor.1 < g.width - 1 then { g with cursor := (g.cursor.1 + 1, g.cursor.2) } else g

/-- Key codes distinguished by `Game::handle_input`. -/
inductive KeyCode where
  | char (c : Char)
  | up
  | down
  | left
  | right
deriving DecidableEq

/-- Terminal events: key events carry a key code, everything else is
ignored by the handler. -/
inductive Event where
  | key (code : KeyCode)
  | other
deriving DecidableEq

/-- `Game::handle_input`: dispatch one event; the `Bool` is the
continue flag (`false` means quit). -/
def Game.handle_input (g : Game) (e : Event) : Game × Bool :=
  match e with
  | Event.other => (g, true)
  | Event.key code =>
    match code with
    | KeyCode.char c =>
      if c = QUIT_KEY then (g, false)
      else if c = STOP_KEY then ({ g with stop := !g.stop }, true)
      else if c = TOGGLE_VIEW_KEY then ({ g with detail_view := !g.detail_view }, true)
      else if c = TOGGLE_CELL_KEY then (g.toggle_cell, true)
      else if c = UP_KEY_ALT then (g.move_up, true)
      else if c = DOWN_KEY_ALT then (g.move_down, true)
      else if c = LEFT_KEY_ALT then (g.move_left, true)
      else if c = RIGHT_KEY_ALT then (g.move_right, true)
      else (g, true)
    | KeyCode.up => (g.move_up, true)
    | KeyCode.down => (g.move_down, true)
    | KeyCode.left => (g.move_left, true)
    | KeyCode.right => (g.move_right, true)

/-- The 2-bit packed state computed in the detail branch of
`Game::print_field`: start from 0, or in `1 <<< dy` for each living cell
of the vertical pair (`dy = 0` is the top cell, `dy = 1` the bottom). -/
def detail_state (top bottom : Bool) : Nat :=
  let state0 : Nat := 0
  let state1 : Nat := if top then state0 ||| (1 <<< 0) else state0
  if bottom then state1 ||| (1 <<< 1) else state1

/-- Plain double-indexed read of a cell matrix (dead outside). -/
def cellAt (f : List (List Bool)) (x y : Nat) : Bool :=
  (f.getD y []).getD x false

/-- The sequence of `self.field[row][col]` index pairs `(row, col)`
performed by `Game::print_field` when the freshly queried terminal size is
`termW × termH`.  Coarse mode reads row `y - 1` for each drawn terminal row
`y ∈ [1, min termH height)`; detail mode reads the pair `y - 1, y` for each
odd `y` below `max (min termH height - 1) 1`.  These are unguarded Vec
indexing operations in the source, so each listed pair is an index the
program must keep inside the stored matrix to avoid an out-of-bounds
abort. -/
def Game.print_accesses (g : Game) (termW termH : Nat) : List (Nat × Nat) :=
  if g.detail_view then
    (List.range' 1 ((max (u16sub1 (min termH g.height)) 1) / 2) 2).flatMap fun y =>
      (List.range (min termW g.width)).flatMap fun x =>
        [(y - 1, x), (y, x)]
  else
    (List.range' 1 (min termH g.height - 1)).flatMap fun y =>
      (List.range (min termW g.width)).map fun x => (y - 1, x)

/-- One glyph written by `Game::print_field`: terminal position, whether
the cursor highlight color was set, and the character printed. -/
structure Emission where
  col : Nat
  row : Nat
  highlight : Bool
  glyph : Char
deriving DecidableEq

/-- The glyph stream of `Game::print_field` (banner line omitted), with
the field reads taken through the total `cellAt` accessor; the raw index
pairs those reads correspond to are recorded by `print_accesses`. -/
def Game.print_emissions (g : Game) (termW termH : Nat) : List Emission :=
  if g.detail_view then
    (List.range' 1 ((max (u16sub1 (min termH g.height)) 1) / 2) 2).flatMap fun y =>
      (List.range (min termW g.width)).map fun x =>
        { col := x
          row := (y + 1) / 2
          highlight := false
          glyph := STATE.getD (detail_state (cellAt g.field x (y - 1)) (cellAt g.field x y)) ' ' }
  else
    (List.range' 1 (min termH g.height - 1)).flatMap fun y =>
      (List.range (min termW g.width)).map fun x =>
        { col := x
          row := y
          highlight := decide (g.cursor = (x, y - 1))
          glyph := if cellAt g.field x (y - 1) then LIVING else DEAD }

/-- Mathematical wrap of an integer coordinate into `[0, m)`. -/
def wrapIdx (n : Int) (m : Nat) : Nat := (n % (m : Int)).toNat

/-- Specification-side count of living cells among the 8 toroidally
wrapped Moore neighbors of `(x, y)` in a `width × height` matrix. -/
def mooreCount (f : List (List Bool)) (W H : Nat) (x y : Nat) : Nat :=
  (DIRECTIONS.filter fun d =>
    cellAt f (wrapIdx ((x : Int) + d.1) W) (wrapIdx ((y : Int) + d.2) H)).length

/-- Build a `height × width` matrix from a cell predicate. -/
def cellFn (f : Nat → Nat → Bool) (W H : Nat) : List (List Bool) :=
  (List.range H).map fun y => (List.range W).map fun x => f x y

/-- A running (unpaused) game over a given matrix and stored size. -/
def mkGame (f : List (List Bool)) (W H : Nat) : Game :=
  { field := f, width := W, height := H, stop := false, cursor := (0, 0), detail_view := false }

/-- Cell predicate of a horizontal blinker: living exactly on the three
horizontally adjacent cells `(x0, y0)`, `(x0+1 mod W, y0)`,
`(x0+2 mod W, y0)`. -/
def blinkHPred (W x0 y0 : Nat) : Nat → Nat → Bool := fun x y =>
  decide (y = y0 ∧ (x = x0 ∨ x = (x0 + 1) % W ∨ x = (x0 + 2) % W))

/-- Cell predicate of a vertical blinker: living exactly on the three
vertically adjacent cells in column `x0+1 mod W`, rows `y0-1`, `y0`,
`y0+1` (wrapped). -/
def blinkVPred (W H x0 y0 : Nat) : Nat → Nat → Bool := fun x y =>
  decide (x = (x0 + 1) % W ∧ (y = y0 ∨ y = (y0 + 1) % H ∨ y = (y0 + H - 1) % H))

/-- Horizontal blinker grid: exactly three horizontally adjacent living
cells starting at `(x0, y0)`, everything else dead. -/
def blinkerH (W H x0 y0 : Nat) : List (List Bool) :=
  cellFn (blinkHPred W x0 y0) W H

/-- Vertical blinker grid: exactly three vertically adjacent living cells
in column `x0+1 mod W` centered on row `y0`, everything else dead. -/
def blinkerV (W H x0 y0 : Nat) : List (List Bool) :=
  cellFn (blinkVPred W H x0 y0) W H

/-- A 3-wide, 1-high grid with a single living cell in the last column;
used to probe the neighbor lookup at far-out-of-range coordinates. -/
def c2cex_game : Game :=
  { field := [[false, false, true]], width := 3, height := 1,
    stop := true, cursor := (0, 0), detail_view := false }

/-- A state just after the terminal grew from 3×3 to 4×4: the stored size
is already 4×4 while the field still holds the old 3×3 matrix, which
carries a 2×2 block of living cells (a still life). -/
def c4cex_game : Game :=
  { field := [[true, true, false], [true, true, false], [false, false, false]],
    width := 4, height := 4, stop := false, cursor := (0, 0), detail_view := false }

/-- State reached by: launch on a 3×3 terminal, unpause, run one loop
iteration while the terminal has grown to 10×10 (which stores the new size
but leaves the freshly built field at 3×3), then pause again. -/
def c6_state : Game :=
  let g0 := Game.try_new 3 3
  let g1 := ((g0.update 3 3).handle_input (Event.key (KeyCode.char STOP_KEY))).1
  ((g1.update 10 10).handle_input (Event.key (KeyCode.char STOP_KEY))).1

/-- One row of the tall counterexample grid: a single living cell in
column 2 of a 5-wide row. -/
def c1row : List Bool := [false, false, true, false, false]

/-- A 5-wide, 32769-high matrix holding a vertical blinker in column 2,
rows 32766..32768. -/
def c1field : List (List Bool) :=
  List.replicate 32766 (List.replicate 5 false) ++ [c1row, c1row, c1row]

/-- The running game over `c1field` with matching stored size 5×32769. -/
def c1game : Game := mkGame c1field 5 32769

/-! ## Helper lemmas -/

/-- A stopped `update` returns the state unchanged. -/
theorem update_of_stop (g : Game) (h : g.stop = true) (w hgt : Nat) :
    g.update w hgt = g := by
  simp [Game.update, h]

/-- Wrapping `u16` decrement agrees with plain decrement on `[1, 65535]`. -/
theorem u16sub1_eq (n : Nat) (h1 : 1 ≤ n) (h2 : n ≤ 65535) : u16sub1 n = n - 1 := by
  unfold u16sub1
  omega

/-- `toNat` commutes with a modulus by a natural number on nonnegative
integers. -/
theorem toNat_emod (a : Int) (m : Nat) (h : 0 ≤ a) :
    (a % (m : Int)).toNat = a.toNat % m := by
  obtain ⟨n, rfl⟩ := Int.eq_ofNat_of_zero_le h
  rw [← Int.natCast_mod, Int.toNat_ofNat, Int.toNat_ofNat]

/-- For `0 ≤ n ≤ 2·W` with `W ≤ 32768` the `u16` cast followed by the
modulus by `W` computes the plain modulus: no truncation happens below
65536, and at exactly 65536 (forcing `W = 32768`) both sides are 0. -/
theorem u16cast_mod (n : Int) (W : Nat) (h0 : 0 ≤ n) (h2 : n ≤ 2 * W)
    (hW : W ≤ 32768) : u16cast n % W = n.toNat % W := by
  unfold u16cast
  rcases lt_or_ge n 65536 with h | h
  · rw [Int.emod_eq_of_lt h0 h]
  · have hn : n = 65536 := by omega
    have hw : W = 32768 := by omega
    subst hn hw
    decide

/-- All direction offsets lie in `[-1, 1]` on both axes. -/
theorem directions_bounded :
    ∀ d ∈ DIRECTIONS, -1 ≤ d.1 ∧ d.1 ≤ 1 ∧ -1 ≤ d.2 ∧ d.2 ≤ 1 := by decide

/-- The neighbor lookup agrees with the mathematically wrapped matrix
read whenever its arguments stay in the truncation-free window
`[-W, W] × [-H, H]` and the grid dimensions fit in `[1, 32768]`. -/
theorem is_alive_at_wrapIdx (g : Game) (x y : Int)
    (hW1 : 1 ≤ g.width) (hW2 : g.width ≤ 32768)
    (hH1 : 1 ≤ g.height) (hH2 : g.height ≤ 32768)
    (hx0 : 0 ≤ x + g.width) (hx1 : x ≤ g.width)
    (hy0 : 0 ≤ y + g.height) (hy1 : y ≤ g.height) :
    g.is_alive_at x y = cellAt g.field (wrapIdx x g.width) (wrapIdx y g.height) := by
  have ex : u16cast (x + g.width) % g.width = wrapIdx x g.width := by
    rw [u16cast_mod (x + g.width) g.width hx0 (by omega) hW2]
    unfold wrapIdx
    rw [← toNat_emod (x + g.width) g.width hx0]
    have : (x + (g.width : Int)) % (g.width : Int) = x % g.width := by
      conv_lhs => rw [show x + (g.width : Int) = x + (g.width : Int) * 1 by ring]
      apply Int.add_mul_emod_self_left
    rw [this]
  have ey : u16cast (y + g.height) % g.height = wrapIdx y g.height := by
    rw [u16cast_mod (y + g.height) g.height hy0 (by omega) hH2]
    unfold wrapIdx
    rw [← toNat_emod (y + g.height) g.height hy0]
    have : (y + (g.height : Int)) % (g.height : Int) = y % g.height := by
      conv_lhs => rw [show y + (g.height : Int) = y + (g.height : Int) * 1 by ring]
      apply Int.add_mul_emod_self_left
    rw [this]
  simp only [Game.is_alive_at, ex, ey, cellAt]

/-- In-range coordinates wrap to themselves. -/
theorem wrapIdx_self (x W : Nat) (h : x < W) : wrapIdx (x : Int) W = x := by
  unfold wrapIdx
  rw [← Int.natCast_mod, Int.toNat_ofNat, Nat.mod_eq_of_lt h]

/-- Reading a matrix built from a cell predicate at in-range coordinates
evaluates the predicate. -/
theorem cellAt_cellFn (f : Nat → Nat → Bool) (W H x y : Nat) (hx : x < W) (hy : y < H) :
    cellAt (cellFn f W H) x y = f x y := by
  unfold cellAt cellFn
  rw [List.getD_eq_getElem?_getD, List.getD_eq_getElem?_getD,
    List.getElem?_map, List.getElem?_range hy]
  simp only [Option.map_some', Option.getD_some]
  rw [List.getElem?_map, List.getElem?_range hx]
  simp only [Option.map_some', Option.getD_some]

/-- Extraction of one cell of the rebuilt generation buffer: at in-range
coordinates it is exactly the B3/S23 decision over the `is_alive_at`
lookups. -/
theorem cellAt_next_field (g : Game) (x y : Nat) (hx : x < g.width) (hy : y < g.height) :
    cellAt g.next_field x y =
      (if g.is_alive_at (x : Int) (y : Int) then
        decide ((DIRECTIONS.filter fun d =>
          g.is_alive_at ((x : Int) + d.1) ((y : Int) + d.2)).length = 2) ||
        decide ((DIRECTIONS.filter fun d =>
          g.is_alive_at ((x : Int) + d.1) ((y : Int) + d.2)).length = 3)
      else
        decide ((DIRECTIONS.filter fun d =>
          g.is_alive_at ((x : Int) + d.1) ((y : Int) + d.2)).length = 3)) := by
  unfold Game.next_field cellAt
  rw [List.getD_eq_getElem?_getD, List.getD_eq_getElem?_getD,
    List.getElem?_map, List.getElem?_range hy]
  simp only [Option.map_some', Option.getD_some]
  rw [List.getElem?_map, List.getElem?_range hx]
  simp only [Option.map_some', Option.getD_some]

/-! ## C3: pausing freezes the grid -/

/-- C3: while `stop = true`, any number of per-iteration `update` calls
(with arbitrary terminal sizes queried along the way) leaves the field
unchanged. -/
theorem stop_preserves_field (g : Game) (h : g.stop = true) (ts : List (Nat × Nat)) :
    (ts.foldl (fun a t => a.update t.1 t.2) g).field = g.field := by
  induction ts generalizing g with
  | nil => rfl
  | cons t ts ih =>
    rw [List.foldl_cons, update_of_stop g h t.1 t.2]
    exact ih g h

/-- Witness for C3 at a concrete paused 2×2 game and two iterations. -/
theorem stop_preserves_field_witness :
    (Game.try_new 2 2).stop = true ∧
    (([((3 : Nat), (3 : Nat)), (7, 1)]).foldl
      (fun a t => a.update t.1 t.2) (Game.try_new 2 2)).field = (Game.try_new 2 2).field :=
  ⟨by decide, stop_preserves_field (Game.try_new 2 2) (by decide) [(3, 3), (7, 1)]⟩

/-! ## C5: terminal-size adoption and cursor clamping -/

/-- C5 counterexample: a paused iteration does not adopt the queried
terminal size.  The update is called with a 7×9 terminal, yet the stored
size stays 5×5 because the stopped branch returns first. -/
theorem paused_update_ignores_resize_cex :
    (Game.try_new 5 5).stop = true ∧
    ((Game.try_new 5 5).update 7 9).width = 5 ∧
    ((Game.try_new 5 5).update 7 9).height = 5 := by decide

/-- C5 (amended): an iteration with the simulation running adopts the
queried terminal size and clamps each cursor axis to `min cursor (size-1)`;
a paused iteration leaves size and cursor untouched. -/
theorem update_running_resize (g : Game) (w h : Nat) (hs : g.stop = false)
    (hw1 : 1 ≤ w) (hw2 : w ≤ 65535) (hh1 : 1 ≤ h) (hh2 : h ≤ 65535) :
    (g.update w h).width = w ∧ (g.update w h).height = h ∧
    (g.update w h).cursor = (min g.cursor.1 (w - 1), min g.cursor.2 (h - 1)) := by
  rw [Game.update]
  simp [hs, u16sub1_eq w hw1 hw2, u16sub1_eq h hh1 hh2]

/-- Witness for C5 at a concrete running game resized to 2×4. -/
theorem update_running_resize_witness :
    ({ Game.try_new 3 3 with stop := false, cursor := (2, 0) } : Game).stop = false ∧
    (({ Game.try_new 3 3 with stop := false, cursor := (2, 0) } : Game).update 2 4).width = 2 ∧
    (({ Game.try_new 3 3 with stop := false, cursor := (2, 0) } : Game).update 2 4).height = 4 ∧
    (({ Game.try_new 3 3 with stop := false, cursor := (2, 0) } : Game).update 2 4).cursor = (1, 0) := by
  have h := update_running_resize { Game.try_new 3 3 with stop := false, cursor := (2, 0) } 2 4
    (by decide) (by decide) (by decide) (by decide) (by decide)
  exact ⟨by decide, h.1, h.2.1, by rw [h.2.2]; decide⟩

/-! ## C8: detail-mode glyph packing -/

/-- C8: the packed state is `top*1 + bottom*2` and selects from the glyph
table `[' ', '▀', '▄', '█']` the empty, upper-half, lower-half and full
block respectively. -/
theorem detail_glyph_packing :
    ∀ top bottom : Bool,
      detail_state top bottom = (if top then 1 else 0) + (if bottom then 2 else 0) ∧
      STATE.getD (detail_state top bottom) ' ' =
        (if bottom then (if top then '█' else '▄') else (if top then '▀' else ' ')) := by
  decide

/-! ## C10: the neighbor lookup is total and bounds-guarded -/

/-- C10: whenever the wrapped index falls outside the stored matrix (row
beyond the stored rows, or column beyond that row), the `Option`-guarded
access makes `is_alive_at` return `false` rather than fail. -/
theorem is_alive_at_guarded (g : Game) (x y : Int)
    (hW : 1 ≤ g.width) (hH : 1 ≤ g.height)
    (h : g.field.length ≤ u16cast (y + g.height) % g.height ∨
      (g.field.getD (u16cast (y + g.height) % g.height) []).length ≤
        u16cast (x + g.width) % g.width) :
    g.is_alive_at x y = false := by
  simp only [Game.is_alive_at]
  rcases h with h | h
  · rw [List.getD_eq_default _ _ h]
    rfl
  · rw [List.getD_eq_default _ _ h]

/-- Witness for C10: stored size 3×1 but only one stored cell, so the
wrapped column index 1 is out of range of the stored row and reads dead. -/
theorem is_alive_at_guarded_witness :
    (1 ≤ (mkGame [[true]] 3 1).width) ∧ (mkGame [[true]] 3 1).is_alive_at 1 0 = false :=
  ⟨by decide, is_alive_at_guarded (mkGame [[true]] 3 1) 1 0 (by decide) (by decide)
    (Or.inr (by decide))⟩

/-! ## C2: toroidal periodicity of the neighbor lookup -/

/-- C2 counterexample: periodicity `is_alive_at x y = is_alive_at (x+W) y`
fails at `x = -4` on a width-3 grid: the `i32 → u16` cast truncates
`-4 + 3 = -1` to 65535, whose remainder modulo 3 is 0, while `-1 + 3 = 2`
wraps to column 2. -/
theorem is_alive_at_periodicity_cex :
    1 ≤ c2cex_game.width ∧ 1 ≤ c2cex_game.height ∧
    c2cex_game.is_alive_at (-4) 0 = false ∧
    c2cex_game.is_alive_at (-4 + (c2cex_game.width : Int)) 0 = true := by decide

/-- C2 (amended): toroidal periodicity and the wrapped-coordinate reading
of the lookup hold on the truncation-free window, i.e. whenever
`0 ≤ x + W` and `x + 2W < 65536` (and likewise for `y`). -/
theorem is_alive_at_periodic (g : Game) (x y : Int)
    (hW : 1 ≤ g.width) (hH : 1 ≤ g.height)
    (hx0 : 0 ≤ x + g.width) (hx1 : x + 2 * g.width < 65536)
    (hy0 : 0 ≤ y + g.height) (hy1 : y + 2 * g.height < 65536) :
    g.is_alive_at (x + g.width) y = g.is_alive_at x y ∧
    g.is_alive_at x (y + g.height) = g.is_alive_at x y ∧
    g.is_alive_at x y =
      (g.field.getD ((y + g.height).toNat % g.height) []).getD
        ((x + g.width).toNat % g.width) false := by
  have e1 : u16cast (x + g.width) = (x + g.width).toNat := by
    simp only [u16cast]
    rw [Int.emod_eq_of_lt hx0 (by omega)]
  have e2 : u16cast (x + g.width + g.width) = (x + g.width).toNat + g.width := by
    simp only [u16cast]
    rw [Int.emod_eq_of_lt (by omega) (by omega)]
    omega
  have e3 : u16cast (y + g.height) = (y + g.height).toNat := by
    simp only [u16cast]
    rw [Int.emod_eq_of_lt hy0 (by omega)]
  have e4 : u16cast (y + g.height + g.height) = (y + g.height).toNat + g.height := by
    simp only [u16cast]
    rw [Int.emod_eq_of_lt (by omega) (by omega)]
    omega
  refine ⟨?_, ?_, ?_⟩
  · simp only [Game.is_alive_at, e1, e2, e3, Nat.add_mod_right]
  · simp only [Game.is_alive_at, e1, e3, e4, Nat.add_mod_right]
  · simp only [Game.is_alive_at, e1, e3]

/-- Witness for C2 at a concrete 2×2 grid and `x = -2`, `y = -1`. -/
theorem is_alive_at_periodic_witness :
    (0 ≤ (-2 : Int) + (mkGame [[true, false], [false, true]] 2 2).width) ∧
    (mkGame [[true, false], [false, true]] 2 2).is_alive_at (-2 + 2) (-1) =
      (mkGame [[true, false], [false, true]] 2 2).is_alive_at (-2) (-1) :=
  ⟨by decide,
    (is_alive_at_periodic (mkGame [[true, false], [false, true]] 2 2) (-2) (-1)
      (by decide) (by decide) (by decide) (by decide) (by decide) (by decide)).1⟩

/-! ## C6: rendering can index past the stored matrix -/

/-- C6: a reachable state on which the render pass reads row 3 of a
3-row matrix.  The state is reached by unpausing on a 3×3 terminal,
letting one iteration store the grown 10×10 terminal size (the field stays
3×3), then pausing; the next (paused) render iterates rows up to
`min (terminal, stored) = 10` and indexes `field[3]`, past the stored
rows — an out-of-bounds Vec index in the source. -/
theorem print_reads_out_of_bounds :
    c6_state.stop = true ∧ c6_state.field.length = 3 ∧
    (3, 0) ∈ c6_state.print_accesses 10 10 := by decide

/-! ## C4: resize does not reset the board -/

/-- C4 counterexample: with the stored size (4×4) differing from the field
dimensions (3×3), the rebuilt generation buffer is not fully dead and the
still-life content of the previous board survives into it verbatim. -/
theorem resize_preserves_content_cex :
    c4cex_game.width = 4 ∧ c4cex_game.height = 4 ∧ c4cex_game.field.length = 3 ∧
    (c4cex_game.update 4 4).field =
      [[true, true, false, false], [true, true, false, false],
       [false, false, false, false], [false, false, false, false]] := by decide

/-- C4 (amended): when a generation buffer is rebuilt it takes the stored
`width × height` shape (its cells defaulting to dead), and each cell is
then populated by the B3/S23 decision over the bounds-guarded wrapped
lookups into the previous board — so previous content inside the wrapped
range is carried forward, not reset. -/
theorem rebuilt_buffer_shape_and_rule (g : Game) (x y : Nat)
    (hx : x < g.width) (hy : y < g.height) :
    g.next_field.length = g.height ∧
    (∀ r ∈ g.next_field, r.length = g.width) ∧
    cellAt g.next_field x y =
      (if g.is_alive_at (x : Int) (y : Int) then
        decide ((DIRECTIONS.filter fun d =>
          g.is_alive_at ((x : Int) + d.1) ((y : Int) + d.2)).length = 2) ||
        decide ((DIRECTIONS.filter fun d =>
          g.is_alive_at ((x : Int) + d.1) ((y : Int) + d.2)).length = 3)
      else
        decide ((DIRECTIONS.filter fun d =>
          g.is_alive_at ((x : Int) + d.1) ((y : Int) + d.2)).length = 3)) := by
  refine ⟨?_, ?_, cellAt_next_field g x y hx hy⟩
  · simp [Game.next_field]
  · intro r hr
    simp only [Game.next_field, List.mem_map] at hr
    obtain ⟨a, _, rfl⟩ := hr
    simp

/-- Witness for C4 at the corner cell of the 4×4-over-3×3 state: the
rule carries the still life forward. -/
theorem rebuilt_buffer_shape_and_rule_witness :
    (0 < c4cex_game.width) ∧ c4cex_game.next_field.length = c4cex_game.height ∧
    cellAt c4cex_game.next_field 0 0 = true :=
  ⟨by decide, (rebuilt_buffer_shape_and_rule c4cex_game 0 0 (by decide) (by decide)).1,
    by rw [(rebuilt_buffer_shape_and_rule c4cex_game 0 0 (by decide) (by decide)).2.2]; decide⟩

/-! ## C9: cursor movement -/

/-- Arrow-up dispatch reduces to the up branch. -/
theorem handle_up (g : Game) : g.handle_input (Event.key KeyCode.up) = (g.move_up, true) := rfl

/-- Vi-key up dispatch reduces to the up branch. -/
theorem handle_up_alt (g : Game) :
    g.handle_input (Event.key (KeyCode.char UP_KEY_ALT)) = (g.move_up, true) := by
  simp [Game.handle_input, QUIT_KEY, STOP_KEY, TOGGLE_VIEW_KEY, TOGGLE_CELL_KEY,
    UP_KEY_ALT, DOWN_KEY_ALT, LEFT_KEY_ALT, RIGHT_KEY_ALT]

/-- Arrow-down dispatch reduces to the down branch. -/
theorem handle_down (g : Game) :
    g.handle_input (Event.key KeyCode.down) = (g.move_down, true) := rfl

/-- Vi-key down dispatch reduces to the down branch. -/
theorem handle_down_alt (g : Game) :
    g.handle_input (Event.key (KeyCode.char DOWN_KEY_ALT)) = (g.move_down, true) := by
  simp [Game.handle_input, QUIT_KEY, STOP_KEY, TOGGLE_VIEW_KEY, TOGGLE_CELL_KEY,
    UP_KEY_ALT, DOWN_KEY_ALT, LEFT_KEY_ALT, RIGHT_KEY_ALT]

/-- Arrow-left dispatch reduces to the left branch. -/
theorem handle_left (g : Game) :
    g.handle_input (Event.key KeyCode.left) = (g.move_left, true) := rfl

/-- Vi-key left dispatch reduces to the left branch. -/
theorem handle_left_alt (g : Game) :
    g.handle_input (Event.key (KeyCode.char LEFT_KEY_ALT)) = (g.move_left, true) := by
  simp [Game.handle_input, QUIT_KEY, STOP_KEY, TOGGLE_VIEW_KEY, TOGGLE_CELL_KEY,
    UP_KEY_ALT, DOWN_KEY_ALT, LEFT_KEY_ALT, RIGHT_KEY_ALT]

/-- Arrow-right dispatch reduces to the right branch. -/
theorem handle_right (g : Game) :
    g.handle_input (Event.key KeyCode.right) = (g.move_right, true) := rfl

/-- Vi-key right dispatch reduces to the right branch. -/
theorem handle_right_alt (g : Game) :
    g.handle_input (Event.key (KeyCode.char RIGHT_KEY_ALT)) = (g.move_right, true) := by
  simp [Game.handle_input, QUIT_KEY, STOP_KEY, TOGGLE_VIEW_KEY, TOGGLE_CELL_KEY,
    UP_KEY_ALT, DOWN_KEY_ALT, LEFT_KEY_ALT, RIGHT_KEY_ALT]

/-- C9: with the cursor in bounds, each directional key (arrow or vi
letter) moves the cursor one cell when the destination is in bounds and
leaves the whole state unchanged when the move would cross an edge; the
orthogonal cursor axis is never touched. -/
theorem cursor_moves_clamped (g : Game) (hW : 1 ≤ g.width) (hH : 1 ≤ g.height)
    (hx : g.cursor.1 < g.width) (hy : g.cursor.2 < g.height) :
    ((0 < g.cursor.2 →
        (g.handle_input (Event.key KeyCode.up)).1.cursor = (g.cursor.1, g.cursor.2 - 1) ∧
        (g.handle_input (Event.key (KeyCode.char UP_KEY_ALT))).1.cursor =
          (g.cursor.1, g.cursor.2 - 1)) ∧
      (g.cursor.2 = 0 →
        (g.handle_input (Event.key KeyCode.up)).1 = g ∧
        (g.handle_input (Event.key (KeyCode.char UP_KEY_ALT))).1 = g)) ∧
    ((g.cursor.2 + 1 < g.height →
        (g.handle_input (Event.key KeyCode.down)).1.cursor = (g.cursor.1, g.cursor.2 + 1) ∧
        (g.handle_input (Event.key (KeyCode.char DOWN_KEY_ALT))).1.cursor =
          (g.cursor.1, g.cursor.2 + 1)) ∧
      (g.cursor.2 + 1 = g.height →
        (g.handle_input (Event.key KeyCode.down)).1 = g ∧
        (g.handle_input (Event.key (KeyCode.char DOWN_KEY_ALT))).1 = g)) ∧
    ((0 < g.cursor.1 →
        (g.handle_input (Event.key KeyCode.left)).1.cursor = (g.cursor.1 - 1, g.cursor.2) ∧
        (g.handle_input (Event.key (KeyCode.char LEFT_KEY_ALT))).1.cursor =
          (g.cursor.1 - 1, g.cursor.2)) ∧
      (g.cursor.1 = 0 →
        (g.handle_input (Event.key KeyCode.left)).1 = g ∧
        (g.handle_input (Event.key (KeyCode.char LEFT_KEY_ALT))).1 = g)) ∧
    ((g.cursor.1 + 1 < g.width →
        (g.handle_input (Event.key KeyCode.right)).1.cursor = (g.cursor.1 + 1, g.cursor.2) ∧
        (g.handle_input (Event.key (KeyCode.char RIGHT_KEY_ALT))).1.cursor =
          (g.cursor.1 + 1, g.cursor.2)) ∧
      (g.cursor.1 + 1 = g.width →
        (g.handle_input (Event.key KeyCode.right)).1 = g ∧
        (g.handle_input (Event.key (KeyCode.char RIGHT_KEY_ALT))).1 = g)) := by
  simp only [handle_up, handle_up_alt, handle_down, handle_down_alt,
    handle_left, handle_left_alt, handle_right, handle_right_alt]
  refine ⟨⟨?_, ?_⟩, ⟨?_, ?_⟩, ⟨?_, ?_⟩, ⟨?_, ?_⟩⟩ <;> intro h
  · rw [Game.move_up, if_pos h]
    exact ⟨rfl, rfl⟩
  · rw [Game.move_up, if_neg (by omega)]
    exact ⟨rfl, rfl⟩
  · rw [Game.move_down, if_pos (by omega)]
    exact ⟨rfl, rfl⟩
  · rw [Game.move_down, if_neg (by omega)]
    exact ⟨rfl, rfl⟩
  · rw [Game.move_left, if_pos h]
    exact ⟨rfl, rfl⟩
  · rw [Game.move_left, if_neg (by omega)]
    exact ⟨rfl, rfl⟩
  · rw [Game.move_right, if_pos (by omega)]
    exact ⟨rfl, rfl⟩
  · rw [Game.move_right, if_neg (by omega)]
    exact ⟨rfl, rfl⟩

/-- Witness for C9 at a 3×3 game with the cursor at (1, 1): the down
move lands one cell lower. -/
theorem cursor_moves_clamped_witness :
    (0 < ({ Game.try_new 3 3 with cursor := (1, 1) } : Game).cursor.2 + 1) ∧
    (({ Game.try_new 3 3 with cursor := (1, 1) } : Game).handle_input
      (Event.key KeyCode.down)).1.cursor = (1, 2) :=
  ⟨by decide,
    ((cursor_moves_clamped { Game.try_new 3 3 with cursor := (1, 1) }
      (by decide) (by decide) (by decide) (by decide)).2.1.1 (by decide)).1⟩

/-! ## C1: the step rule -/

/-- C1 (amended): on a grid whose stored field matches the stored
`width × height` with both dimensions in `[1, 32768]`, one step implements
B3/S23 pointwise against the toroidal Moore-neighbor count. -/
theorem next_field_implements_b3s23 (g : Game)
    (hfl : g.field.length = g.height) (hrow : ∀ r ∈ g.field, r.length = g.width)
    (hW1 : 1 ≤ g.width) (hW2 : g.width ≤ 32768)
    (hH1 : 1 ≤ g.height) (hH2 : g.height ≤ 32768)
    (x y : Nat) (hx : x < g.width) (hy : y < g.height) :
    (cellAt g.field x y = true →
      (cellAt g.next_field x y = true ↔
        (mooreCount g.field g.width g.height x y = 2 ∨
          mooreCount g.field g.width g.height x y = 3))) ∧
    (cellAt g.field x y = false →
      (cellAt g.next_field x y = true ↔
        mooreCount g.field g.width g.height x y = 3)) := by
  have hcount : (DIRECTIONS.filter fun d =>
      g.is_alive_at ((x : Int) + d.1) ((y : Int) + d.2)).length =
      mooreCount g.field g.width g.height x y := by
    unfold mooreCount
    congr 1
    apply List.filter_congr
    intro d hd
    obtain ⟨h1, h2, h3, h4⟩ := directions_bounded d hd
    exact is_alive_at_wrapIdx g _ _ hW1 hW2 hH1 hH2
      (by omega) (by omega) (by omega) (by omega)
  have hown : g.is_alive_at (x : Int) (y : Int) = cellAt g.field x y := by
    rw [is_alive_at_wrapIdx g x y hW1 hW2 hH1 hH2
        (by omega) (by omega) (by omega) (by omega),
      wrapIdx_self x g.width hx, wrapIdx_self y g.height hy]
  have hnext := cellAt_next_field g x y hx hy
  rw [hcount, hown] at hnext
  constructor
  · intro hlive
    rw [hlive] at hnext
    simp only [if_true] at hnext
    rw [hnext]
    simp
  · intro hdead
    rw [hdead] at hnext
    simp only [Bool.false_eq_true, if_false] at hnext
    rw [hnext]
    simp

/-- Witness for C1 at the center of a 5×5 horizontal blinker: live with
two live neighbors, so it survives. -/
theorem next_field_implements_b3s23_witness :
    cellAt (mkGame (blinkerH 5 5 1 2) 5 5).field 2 2 = true ∧
    mooreCount (mkGame (blinkerH 5 5 1 2) 5 5).field 5 5 2 2 = 2 ∧
    cellAt (mkGame (blinkerH 5 5 1 2) 5 5).next_field 2 2 = true := by
  refine ⟨by decide, by decide, ?_⟩
  exact ((next_field_implements_b3s23 (mkGame (blinkerH 5 5 1 2) 5 5)
      (by decide) (by decide) (by decide) (by decide) (by decide) (by decide)
      2 2 (by decide) (by decide)).1 (by decide)).mpr (Or.inl (by decide))

/-- Rows of the tall counterexample grid below the blinker band. -/
theorem c1field_getD_lt (n : Nat) (h : n < 32766) :
    c1field.getD n [] = List.replicate 5 false := by
  unfold c1field
  rw [List.getD_eq_getElem?_getD, List.getElem?_append, List.length_replicate, if_pos h,
    List.getElem?_replicate, if_pos h]
  rfl

/-- Rows of the tall counterexample grid inside the blinker band. -/
theorem c1field_getD_ge (n : Nat) (h1 : 32766 ≤ n) (h2 : n < 32769) :
    c1field.getD n [] = c1row := by
  unfold c1field
  rw [List.getD_eq_getElem?_getD,
    List.getElem?_append_right (by rw [List.length_replicate]; omega),
    List.length_replicate]
  have h : n - 32766 = 0 ∨ n - 32766 = 1 ∨ n - 32766 = 2 := by omega
  rcases h with h | h | h <;> rw [h] <;> rfl

/-- The `c1game` lookup, with the stored size already substituted. -/
theorem c1game_is_alive (x y : Int) :
    c1game.is_alive_at x y =
      (c1field.getD (u16cast (y + 32769) % 32769) []).getD (u16cast (x + 5) % 5) false := rfl

/-- C1 counterexample: on a 5×32769 grid (field dimensions matching the
stored size) holding a vertical blinker in column 2, rows 32766..32768,
the live center cell (2, 32767) has exactly 2 live toroidal Moore
neighbors, yet the step kills it: the `i32 → u16` cast truncates
`32767 + 32769 = 65536` to 0, so its lookups read the wrong rows. -/
theorem next_field_rule_cex :
    c1game.field.length = c1game.height ∧
    (∀ r ∈ c1game.field, r.length = c1game.width) ∧
    1 ≤ c1game.width ∧ 1 ≤ c1game.height ∧
    cellAt c1game.field 2 32767 = true ∧
    mooreCount c1game.field 5 32769 2 32767 = 2 ∧
    cellAt c1game.next_field 2 32767 = false := by
  have hc1 : cellAt c1field 1 32766 = false := by
    unfold cellAt; rw [c1field_getD_ge 32766 (by omega) (by omega)]; decide
  have hc2 : cellAt c1field 2 32766 = true := by
    unfold cellAt; rw [c1field_getD_ge 32766 (by omega) (by omega)]; decide
  have hc3 : cellAt c1field 3 32766 = false := by
    unfold cellAt; rw [c1field_getD_ge 32766 (by omega) (by omega)]; decide
  have hc4 : cellAt c1field 1 32767 = false := by
    unfold cellAt; rw [c1field_getD_ge 32767 (by omega) (by omega)]; decide
  have hc5 : cellAt c1field 2 32767 = true := by
    unfold cellAt; rw [c1field_getD_ge 32767 (by omega) (by omega)]; decide
  have hc6 : cellAt c1field 3 32767 = false := by
    unfold cellAt; rw [c1field_getD_ge 32767 (by omega) (by omega)]; decide
  have hc7 : cellAt c1field 1 32768 = false := by
    unfold cellAt; rw [c1field_getD_ge 32768 (by omega) (by omega)]; decide
  have hc8 : cellAt c1field 2 32768 = true := by
    unfold cellAt; rw [c1field_getD_ge 32768 (by omega) (by omega)]; decide
  have hc9 : cellAt c1field 3 32768 = false := by
    unfold cellAt; rw [c1field_getD_ge 32768 (by omega) (by omega)]; decide
  refine ⟨?_, ?_, by decide, by decide, hc5, ?_, ?_⟩
  · show c1field.length = 32769
    unfold c1field
    rw [List.length_append, List.length_replicate]
    rfl
  · intro r hr
    show r.length = 5
    have hr2 : r ∈ List.replicate 32766 (List.replicate 5 false) ++ [c1row, c1row, c1row] := hr
    rw [List.mem_append] at hr2
    rcases hr2 with hr2 | hr2
    · rw [List.eq_of_mem_replicate hr2]; rfl
    · simp only [List.mem_cons, List.not_mem_nil, or_false] at hr2
      rcases hr2 with rfl | rfl | rfl <;> rfl
  · show mooreCount c1field 5 32769 2 32767 = 2
    unfold mooreCount
    rw [← List.countP_eq_length_filter]
    simp only [DIRECTIONS, List.countP_cons, List.countP_nil]
    rw [show wrapIdx (((2 : Nat) : Int) + -1) 5 = 1 from by decide,
      show wrapIdx (((2 : Nat) : Int) + 0) 5 = 2 from by decide,
      show wrapIdx (((2 : Nat) : Int) + 1) 5 = 3 from by decide,
      show wrapIdx (((32767 : Nat) : Int) + -1) 32769 = 32766 from by decide,
      show wrapIdx (((32767 : Nat) : Int) + 0) 32769 = 32767 from by decide,
      show wrapIdx (((32767 : Nat) : Int) + 1) 32769 = 32768 from by decide]
    simp [hc1, hc2, hc3, hc4, hc6, hc7, hc8, hc9]
  · rw [cellAt_next_field c1game 2 32767 (by decide) (by decide)]
    have hown : c1game.is_alive_at ((2 : Nat) : Int) ((32767 : Nat) : Int) = false := by
      rw [c1game_is_alive,
        show u16cast (((32767 : Nat) : Int) + 32769) % 32769 = 0 from by decide,
        show u16cast (((2 : Nat) : Int) + 5) % 5 = 2 from by decide,
        c1field_getD_lt 0 (by omega)]
      decide
    rw [hown]
    simp only [Bool.false_eq_true, if_false, decide_eq_false_iff_not]
    have b1 : c1game.is_alive_at 1 32766 = false := by
      rw [c1game_is_alive,
        show u16cast ((32766 : Int) + 32769) % 32769 = 32766 from by decide,
        show u16cast ((1 : Int) + 5) % 5 = 1 from by decide,
        c1field_getD_ge 32766 (by omega) (by omega)]
      decide
    have b2 : c1game.is_alive_at 2 32766 = true := by
      rw [c1game_is_alive,
        show u16cast ((32766 : Int) + 32769) % 32769 = 32766 from by decide,
        show u16cast ((2 : Int) + 5) % 5 = 2 from by decide,
        c1field_getD_ge 32766 (by omega) (by omega)]
      decide
    have b3 : c1game.is_alive_at 3 32766 = false := by
      rw [c1game_is_alive,
        show u16cast ((32766 : Int) + 32769) % 32769 = 32766 from by decide,
        show u16cast ((3 : Int) + 5) % 5 = 3 from by decide,
        c1field_getD_ge 32766 (by omega) (by omega)]
      decide
    have b4 : c1game.is_alive_at 1 32767 = false := by
      rw [c1game_is_alive,
        show u16cast ((32767 : Int) + 32769) % 32769 = 0 from by decide,
        show u16cast ((1 : Int) + 5) % 5 = 1 from by decide,
        c1field_getD_lt 0 (by omega)]
      decide
    have b5 : c1game.is_alive_at 3 32767 = false := by
      rw [c1game_is_alive,
        show u16cast ((32767 : Int) + 32769) % 32769 = 0 from by decide,
        show u16cast ((3 : Int) + 5) % 5 = 3 from by decide,
        c1field_getD_lt 0 (by omega)]
      decide
    have b6 : c1game.is_alive_at 1 32768 = false := by
      rw [c1game_is_alive,
        show u16cast ((32768 : Int) + 32769) % 32769 = 1 from by decide,
        show u16cast ((1 : Int) + 5) % 5 = 1 from by decide,
        c1field_getD_lt 1 (by omega)]
      decide
    have b7 : c1game.is_alive_at 2 32768 = false := by
      rw [c1game_is_alive,
        show u16cast ((32768 : Int) + 32769) % 32769 = 1 from by decide,
        show u16cast ((2 : Int) + 5) % 5 = 2 from by decide,
        c1field_getD_lt 1 (by omega)]
      decide
    have b8 : c1game.is_alive_at 3 32768 = false := by
      rw [c1game_is_alive,
        show u16cast ((32768 : Int) + 32769) % 32769 = 1 from by decide,
        show u16cast ((3 : Int) + 5) % 5 = 3 from by decide,
        c1field_getD_lt 1 (by omega)]
      decide
    have hlen : (DIRECTIONS.filter fun d =>
        c1game.is_alive_at (((2 : Nat) : Int) + d.1) (((32767 : Nat) : Int) + d.2)).length = 1 := by
      rw [← List.countP_eq_length_filter]
      simp only [DIRECTIONS, List.countP_cons, List.countP_nil]
      simp [b1, b2, b3, b4, b5, b6, b7, b8]
    rw [hlen]
    omega

/-! ## C7 infrastructure -/

theorem cellFn_congr (f h : Nat → Nat → Bool) (W H : Nat)
    (heq : ∀ x < W, ∀ y < H, f x y = h x y) : cellFn f W H = cellFn h W H := by
  unfold cellFn
  apply List.map_congr_left
  intro y hy
  apply List.map_congr_left
  intro x hx
  exact heq x (List.mem_range.mp hx) y (List.mem_range.mp hy)

theorem next_field_eq_cellFn (g : Game) :
    g.next_field = cellFn (fun x y =>
      if g.is_alive_at (x : Int) (y : Int) then
        decide ((DIRECTIONS.filter fun d =>
          g.is_alive_at ((x : Int) + d.1) ((y : Int) + d.2)).length = 2) ||
        decide ((DIRECTIONS.filter fun d =>
          g.is_alive_at ((x : Int) + d.1) ((y : Int) + d.2)).length = 3)
      else
        decide ((DIRECTIONS.filter fun d =>
          g.is_alive_at ((x : Int) + d.1) ((y : Int) + d.2)).length = 3)) g.width g.height := rfl

theorem wrapIdx_lt (n : Int) (m : Nat) (h : 1 ≤ m) : wrapIdx n m < m := by
  unfold wrapIdx
  rw [Int.toNat_lt (Int.emod_nonneg n (by omega))]
  exact Int.emod_lt_of_pos n (by omega)

theorem is_alive_cellFn (f : Nat → Nat → Bool) (W H : Nat)
    (hW1 : 1 ≤ W) (hW2 : W ≤ 32768) (hH1 : 1 ≤ H) (hH2 : H ≤ 32768)
    (x y : Int) (hx0 : 0 ≤ x + W) (hx1 : x ≤ W) (hy0 : 0 ≤ y + H) (hy1 : y ≤ H) :
    (mkGame (cellFn f W H) W H).is_alive_at x y = f (wrapIdx x W) (wrapIdx y H) := by
  rw [is_alive_at_wrapIdx (mkGame (cellFn f W H) W H) x y hW1 hW2 hH1 hH2 hx0 hx1 hy0 hy1]
  exact cellAt_cellFn f W H _ _ (wrapIdx_lt x W hW1) (wrapIdx_lt y H hH1)

theorem wrapIdx_cast_add (a : Nat) (b : Int) (W : Nat) (h1 : 1 ≤ W) (hb : 0 ≤ b + W) :
    wrapIdx ((a : Int) + b) W = (a + (b + W).toNat) % W := by
  unfold wrapIdx
  have h : ((a : Int) + b) % W = (((a + (b + W).toNat : Nat) : Int)) % W := by
    rw [show ((a + (b + W).toNat : Nat) : Int) = (a : Int) + b + W * 1 by push_cast; omega]
    rw [Int.add_mul_emod_self_left]
  rw [h, ← Int.natCast_mod, Int.toNat_ofNat]

theorem wrapIdx_sub1 (x W : Nat) (h1 : 1 ≤ W) :
    wrapIdx ((x : Int) + -1) W = (x + (W - 1)) % W := by
  rw [wrapIdx_cast_add x (-1) W h1 (by omega),
    show ((-1 : Int) + W).toNat = W - 1 by omega]

theorem wrapIdx_add1 (x W : Nat) (h1 : 1 ≤ W) :
    wrapIdx ((x : Int) + 1) W = (x + 1) % W := by
  rw [wrapIdx_cast_add x 1 W h1 (by omega)]
  rw [show (x + ((1 : Int) + W).toNat) = (x + 1) + W by omega, Nat.add_mod_right]

theorem mod_shift_eq (a x0 W : Nat) (ha : a < W) (hx0 : x0 < W) :
    (a + (W - x0)) % W = if x0 ≤ a then a - x0 else a + (W - x0) := by
  rcases le_or_lt x0 a with h | h
  · rw [if_pos h, show a + (W - x0) = (a - x0) + W by omega, Nat.add_mod_right,
      Nat.mod_eq_of_lt (by omega)]
  · rw [if_neg (by omega), Nat.mod_eq_of_lt (by omega)]

theorem mod_succ (x0 W : Nat) (h : x0 < W) :
    (x0 + 1) % W = if x0 + 1 < W then x0 + 1 else 0 := by
  rcases lt_or_ge (x0 + 1) W with h1 | h1
  · rw [if_pos h1, Nat.mod_eq_of_lt h1]
  · rw [if_neg (by omega), show x0 + 1 = 0 + W by omega, Nat.add_mod_right, Nat.zero_mod]

theorem mod_succ2 (x0 W : Nat) (h : x0 < W) (h2 : 2 ≤ W) :
    (x0 + 2) % W = if x0 + 2 < W then x0 + 2 else x0 + 2 - W := by
  rcases lt_or_ge (x0 + 2) W with h1 | h1
  · rw [if_pos h1, Nat.mod_eq_of_lt h1]
  · rw [if_neg (by omega)]
    conv_lhs => rw [show x0 + 2 = (x0 + 2 - W) + W by omega]
    rw [Nat.add_mod_right, Nat.mod_eq_of_lt (by omega)]

theorem mod_shift_add (x s k W : Nat) :
    ((x + s) % W + k) % W = ((x + k) % W + s) % W := by
  rw [Nat.mod_add_mod, Nat.mod_add_mod, Nat.add_right_comm]

theorem rel_eq_zero (b y0 H : Nat) (hb : b < H) (hy0 : y0 < H) :
    b = y0 ↔ (b + (H - y0)) % H = 0 := by
  rw [mod_shift_eq b y0 H hb hy0]
  split_ifs <;> omega

theorem rel_eq_one (b y0 H : Nat) (hb : b < H) (hy0 : y0 < H) (h2 : 2 ≤ H) :
    b = (y0 + 1) % H ↔ (b + (H - y0)) % H = 1 := by
  rw [mod_succ y0 H hy0, mod_shift_eq b y0 H hb hy0]
  split_ifs <;> omega

theorem rel_eq_last (b y0 H : Nat) (hb : b < H) (hy0 : y0 < H) (h2 : 2 ≤ H) :
    b = (y0 + H - 1) % H ↔ (b + (H - y0)) % H = H - 1 := by
  have h : (y0 + H - 1) % H = if 1 ≤ y0 then y0 - 1 else H - 1 := by
    rcases le_or_lt 1 y0 with h | h
    · rw [if_pos h, show y0 + H - 1 = (y0 - 1) + H by omega, Nat.add_mod_right,
        Nat.mod_eq_of_lt (by omega)]
    · rw [if_neg (by omega), show y0 + H - 1 = H - 1 by omega, Nat.mod_eq_of_lt (by omega)]
  rw [h, mod_shift_eq b y0 H hb hy0]
  split_ifs <;> omega

theorem rel_lt_three (a x0 W : Nat) (ha : a < W) (hx0 : x0 < W) (h5 : 5 ≤ W) :
    (a = x0 ∨ a = (x0 + 1) % W ∨ a = (x0 + 2) % W) ↔ (a + (W - x0)) % W < 3 := by
  rw [mod_succ x0 W hx0, mod_succ2 x0 W hx0 (by omega), mod_shift_eq a x0 W ha hx0]
  split_ifs <;> omega

theorem blinkHPred_iff (W H x0 y0 a b : Nat) (ha : a < W) (hb : b < H)
    (hx0 : x0 < W) (hy0 : y0 < H) (h5 : 5 ≤ W) :
    (blinkHPred W x0 y0 a b = true) ↔
      ((b + (H - y0)) % H = 0 ∧ (a + (W - x0)) % W < 3) := by
  simp only [blinkHPred, decide_eq_true_eq]
  rw [rel_eq_zero b y0 H hb hy0, rel_lt_three a x0 W ha hx0 h5]

theorem blinkVPred_iff (W H x0 y0 a b : Nat) (ha : a < W) (hb : b < H)
    (hx0 : x0 < W) (hy0 : y0 < H) (h2W : 2 ≤ W) (h2H : 2 ≤ H) :
    (blinkVPred W H x0 y0 a b = true) ↔
      ((a + (W - x0)) % W = 1 ∧
        ((b + (H - y0)) % H = 0 ∨ (b + (H - y0)) % H = 1 ∨ (b + (H - y0)) % H = H - 1)) := by
  simp only [blinkVPred, decide_eq_true_eq]
  rw [rel_eq_one a x0 W ha hx0 h2W, rel_eq_zero b y0 H hb hy0, rel_eq_one b y0 H hb hy0 h2H,
    rel_eq_last b y0 H hb hy0 h2H]

theorem relm1_eq_zero (v H : Nat) (hv : v < H) (h5 : 5 ≤ H) :
    (v + (H - 1)) % H = 0 ↔ v = 1 := by
  rcases Nat.eq_zero_or_pos v with h | h
  · rw [h, Nat.zero_add, Nat.mod_eq_of_lt (by omega)]
    omega
  · rw [show v + (H - 1) = (v - 1) + H by omega, Nat.add_mod_right,
      Nat.mod_eq_of_lt (by omega)]
    omega

theorem relm1_eq_one (v H : Nat) (hv : v < H) (h5 : 5 ≤ H) :
    (v + (H - 1)) % H = 1 ↔ v = 2 := by
  rcases Nat.eq_zero_or_pos v with h | h
  · rw [h, Nat.zero_add, Nat.mod_eq_of_lt (by omega)]
    omega
  · rw [show v + (H - 1) = (v - 1) + H by omega, Nat.add_mod_right,
      Nat.mod_eq_of_lt (by omega)]
    omega

theorem relm1_eq_last (v H : Nat) (hv : v < H) (h5 : 5 ≤ H) :
    (v + (H - 1)) % H = H - 1 ↔ v = 0 := by
  rcases Nat.eq_zero_or_pos v with h | h
  · rw [h, Nat.zero_add, Nat.mod_eq_of_lt (by omega)]
    omega
  · rw [show v + (H - 1) = (v - 1) + H by omega, Nat.add_mod_right,
      Nat.mod_eq_of_lt (by omega)]
    omega

theorem relm1_lt_three (u W : Nat) (hu : u < W) (h5 : 5 ≤ W) :
    (u + (W - 1)) % W < 3 ↔ (1 ≤ u ∧ u < 4) := by
  rcases Nat.eq_zero_or_pos u with h | h
  · rw [h, Nat.zero_add, Nat.mod_eq_of_lt (by omega)]
    omega
  · rw [show u + (W - 1) = (u - 1) + W by omega, Nat.add_mod_right,
      Nat.mod_eq_of_lt (by omega)]
    omega

theorem relp1_eq_zero (v H : Nat) (hv : v < H) (h5 : 5 ≤ H) :
    (v + 1) % H = 0 ↔ v = H - 1 := by
  rcases lt_or_ge (v + 1) H with h | h
  · rw [Nat.mod_eq_of_lt h]
    omega
  · rw [show v + 1 = H by omega, Nat.mod_self]
    omega

theorem relp1_eq_one (v H : Nat) (hv : v < H) (h5 : 5 ≤ H) :
    (v + 1) % H = 1 ↔ v = 0 := by
  rcases lt_or_ge (v + 1) H with h | h
  · rw [Nat.mod_eq_of_lt h]
    omega
  · rw [show v + 1 = H by omega, Nat.mod_self]
    omega

theorem relp1_eq_last (v H : Nat) (hv : v < H) (h5 : 5 ≤ H) :
    (v + 1) % H = H - 1 ↔ v = H - 2 := by
  rcases lt_or_ge (v + 1) H with h | h
  · rw [Nat.mod_eq_of_lt h]
    omega
  · rw [show v + 1 = H by omega, Nat.mod_self]
    omega

theorem relp1_lt_three (u W : Nat) (hu : u < W) (h5 : 5 ≤ W) :
    (u + 1) % W < 3 ↔ (u < 2 ∨ u = W - 1) := by
  rcases lt_or_ge (u + 1) W with h | h
  · rw [Nat.mod_eq_of_lt h]
    omega
  · rw [show u + 1 = W by omega, Nat.mod_self]
    omega

set_option maxHeartbeats 2000000 in
theorem blinkH_step (W H x0 y0 : Nat)
    (hW1 : 5 ≤ W) (hW2 : W ≤ 32768) (hH1 : 5 ≤ H) (hH2 : H ≤ 32768)
    (hx0 : x0 < W) (hy0 : y0 < H) :
    (mkGame (blinkerH W H x0 y0) W H).next_field = blinkerV W H x0 y0 := by
  rw [next_field_eq_cellFn]
  unfold blinkerH blinkerV
  show cellFn _ W H = cellFn (blinkVPred W H x0 y0) W H
  apply cellFn_congr
  intro x hx y hy
  rw [Bool.eq_iff_iff]
  have a0 : ((mkGame (cellFn (blinkHPred W x0 y0) W H) W H).is_alive_at
      ((x : Int)) ((y : Int)) = true) ↔
      ((y + (H - y0)) % H = 0 ∧ (x + (W - x0)) % W < 3) := by
    rw [is_alive_cellFn (blinkHPred W x0 y0) W H (by omega) hW2 (by omega) hH2 _ _
        (by omega) (by omega) (by omega) (by omega),
      wrapIdx_self x W hx, wrapIdx_self y H hy,
      blinkHPred_iff W H x0 y0 x y hx hy hx0 hy0 hW1]
  have a1 : ((mkGame (cellFn (blinkHPred W x0 y0) W H) W H).is_alive_at
      ((x : Int) + -1) ((y : Int) + -1) = true) ↔
      (((y + (H - y0)) % H + (H - 1)) % H = 0 ∧ ((x + (W - x0)) % W + (W - 1)) % W < 3) := by
    rw [is_alive_cellFn (blinkHPred W x0 y0) W H (by omega) hW2 (by omega) hH2 _ _
        (by omega) (by omega) (by omega) (by omega),
      wrapIdx_sub1 x W (by omega), wrapIdx_sub1 y H (by omega),
      blinkHPred_iff W H x0 y0 _ _ (Nat.mod_lt _ (by omega)) (Nat.mod_lt _ (by omega)) hx0 hy0 hW1,
      mod_shift_add y (H - 1) (H - y0) H, mod_shift_add x (W - 1) (W - x0) W]
  have a2 : ((mkGame (cellFn (blinkHPred W x0 y0) W H) W H).is_alive_at
      ((x : Int) + -1) ((y : Int)) = true) ↔
      ((y + (H - y0)) % H = 0 ∧ ((x + (W - x0)) % W + (W - 1)) % W < 3) := by
    rw [is_alive_cellFn (blinkHPred W x0 y0) W H (by omega) hW2 (by omega) hH2 _ _
        (by omega) (by omega) (by omega) (by omega),
      wrapIdx_sub1 x W (by omega), wrapIdx_self y H hy,
      blinkHPred_iff W H x0 y0 _ _ (Nat.mod_lt _ (by omega)) hy hx0 hy0 hW1,
      mod_shift_add x (W - 1) (W - x0) W]
  have a3 : ((mkGame (cellFn (blinkHPred W x0 y0) W H) W H).is_alive_at
      ((x : Int) + -1) ((y : Int) + 1) = true) ↔
      (((y + (H - y0)) % H + 1) % H = 0 ∧ ((x + (W - x0)) % W + (W - 1)) % W < 3) := by
    rw [is_alive_cellFn (blinkHPred W x0 y0) W H (by omega) hW2 (by omega) hH2 _ _
        (by omega) (by omega) (by omega) (by omega),
      wrapIdx_sub1 x W (by omega), wrapIdx_add1 y H (by omega),
      blinkHPred_iff W H x0 y0 _ _ (Nat.mod_lt _ (by omega)) (Nat.mod_lt _ (by omega)) hx0 hy0 hW1,
      mod_shift_add y 1 (H - y0) H, mod_shift_add x (W - 1) (W - x0) W]
  have a4 : ((mkGame (cellFn (blinkHPred W x0 y0) W H) W H).is_alive_at
      ((x : Int)) ((y : Int) + -1) = true) ↔
      (((y + (H - y0)) % H + (H - 1)) % H = 0 ∧ (x + (W - x0)) % W < 3) := by
    rw [is_alive_cellFn (blinkHPred W x0 y0) W H (by omega) hW2 (by omega) hH2 _ _
        (by omega) (by omega) (by omega) (by omega),
      wrapIdx_self x W hx, wrapIdx_sub1 y H (by omega),
      blinkHPred_iff W H x0 y0 _ _ hx (Nat.mod_lt _ (by omega)) hx0 hy0 hW1,
      mod_shift_add y (H - 1) (H - y0) H]
  have a5 : ((mkGame (cellFn (blinkHPred W x0 y0) W H) W H).is_alive_at
      ((x : Int)) ((y : Int) + 1) = true) ↔
      (((y + (H - y0)) % H + 1) % H = 0 ∧ (x + (W - x0)) % W < 3) := by
    rw [is_alive_cellFn (blinkHPred W x0 y0) W H (by omega) hW2 (by omega) hH2 _ _
        (by omega) (by omega) (by omega) (by omega),
      wrapIdx_self x W hx, wrapIdx_add1 y H (by omega),
      blinkHPred_iff W H x0 y0 _ _ hx (Nat.mod_lt _ (by omega)) hx0 hy0 hW1,
      mod_shift_add y 1 (H - y0) H]
  have a6 : ((mkGame (cellFn (blinkHPred W x0 y0) W H) W H).is_alive_at
      ((x : Int) + 1) ((y : Int) + -1) = true) ↔
      (((y + (H - y0)) % H + (H - 1)) % H = 0 ∧ ((x + (W - x0)) % W + 1) % W < 3) := by
    rw [is_alive_cellFn (blinkHPred W x0 y0) W H (by omega) hW2 (by omega) hH2 _ _
        (by omega) (by omega) (by omega) (by omega),
      wrapIdx_add1 x W (by omega), wrapIdx_sub1 y H (by omega),
      blinkHPred_iff W H x0 y0 _ _ (Nat.mod_lt _ (by omega)) (Nat.mod_lt _ (by omega)) hx0 hy0 hW1,
      mod_shift_add y (H - 1) (H - y0) H, mod_shift_add x 1 (W - x0) W]
  have a7 : ((mkGame (cellFn (blinkHPred W x0 y0) W H) W H).is_alive_at
      ((x : Int) + 1) ((y : Int)) = true) ↔
      ((y + (H - y0)) % H = 0 ∧ ((x + (W - x0)) % W + 1) % W < 3) := by
    rw [is_alive_cellFn (blinkHPred W x0 y0) W H (by omega) hW2 (by omega) hH2 _ _
        (by omega) (by omega) (by omega) (by omega),
      wrapIdx_add1 x W (by omega), wrapIdx_self y H hy,
      blinkHPred_iff W H x0 y0 _ _ (Nat.mod_lt _ (by omega)) hy hx0 hy0 hW1,
      mod_shift_add x 1 (W - x0) W]
  have a8 : ((mkGame (cellFn (blinkHPred W x0 y0) W H) W H).is_alive_at
      ((x : Int) + 1) ((y : Int) + 1) = true) ↔
      (((y + (H - y0)) % H + 1) % H = 0 ∧ ((x + (W - x0)) % W + 1) % W < 3) := by
    rw [is_alive_cellFn (blinkHPred W x0 y0) W H (by omega) hW2 (by omega) hH2 _ _
        (by omega) (by omega) (by omega) (by omega),
      wrapIdx_add1 x W (by omega), wrapIdx_add1 y H (by omega),
      blinkHPred_iff W H x0 y0 _ _ (Nat.mod_lt _ (by omega)) (Nat.mod_lt _ (by omega)) hx0 hy0 hW1,
      mod_shift_add y 1 (H - y0) H, mod_shift_add x 1 (W - x0) W]
  rw [blinkVPred_iff W H x0 y0 x y hx hy hx0 hy0 (by omega) (by omega)]
  simp only [← List.countP_eq_length_filter, DIRECTIONS, List.countP_cons, List.countP_nil,
    add_zero]
  simp only [a0, a1, a2, a3, a4, a5, a6, a7, a8]
  have hu : (x + (W - x0)) % W < W := Nat.mod_lt _ (by omega)
  have hv : (y + (H - y0)) % H < H := Nat.mod_lt _ (by omega)
  simp only [relm1_eq_zero ((y + (H - y0)) % H) H hv hH1,
    relp1_eq_zero ((y + (H - y0)) % H) H hv hH1,
    relm1_lt_three ((x + (W - x0)) % W) W hu hW1,
    relp1_lt_three ((x + (W - x0)) % W) W hu hW1]
  clear a0 a1 a2 a3 a4 a5 a6 a7 a8
  by_cases hown : (y + (H - y0)) % H = 0 ∧ (x + (W - x0)) % W < 3
  · rw [if_pos hown]
    simp only [Bool.or_eq_true, decide_eq_true_eq]
    split_ifs <;> omega
  · rw [if_neg hown]
    simp only [decide_eq_true_eq]
    split_ifs <;> omega

set_option maxHeartbeats 2000000 in
theorem blinkV_step (W H x0 y0 : Nat)
    (hW1 : 5 ≤ W) (hW2 : W ≤ 32768) (hH1 : 5 ≤ H) (hH2 : H ≤ 32768)
    (hx0 : x0 < W) (hy0 : y0 < H) :
    (mkGame (blinkerV W H x0 y0) W H).next_field = blinkerH W H x0 y0 := by
  rw [next_field_eq_cellFn]
  unfold blinkerH blinkerV
  show cellFn _ W H = cellFn (blinkHPred W x0 y0) W H
  apply cellFn_congr
  intro x hx y hy
  rw [Bool.eq_iff_iff]
  have a0 : ((mkGame (cellFn (blinkVPred W H x0 y0) W H) W H).is_alive_at
      ((x : Int)) ((y : Int)) = true) ↔
      ((x + (W - x0)) % W = 1 ∧
        ((y + (H - y0)) % H = 0 ∨ (y + (H - y0)) % H = 1 ∨ (y + (H - y0)) % H = H - 1)) := by
    rw [is_alive_cellFn (blinkVPred W H x0 y0) W H (by omega) hW2 (by omega) hH2 _ _
        (by omega) (by omega) (by omega) (by omega),
      wrapIdx_self x W hx, wrapIdx_self y H hy,
      blinkVPred_iff W H x0 y0 x y hx hy hx0 hy0 (by omega) (by omega)]
  have a1 : ((mkGame (cellFn (blinkVPred W H x0 y0) W H) W H).is_alive_at
      ((x : Int) + -1) ((y : Int) + -1) = true) ↔
      (((x + (W - x0)) % W + (W - 1)) % W = 1 ∧
        (((y + (H - y0)) % H + (H - 1)) % H = 0 ∨ ((y + (H - y0)) % H + (H - 1)) % H = 1 ∨
          ((y + (H - y0)) % H + (H - 1)) % H = H - 1)) := by
    rw [is_alive_cellFn (blinkVPred W H x0 y0) W H (by omega) hW2 (by omega) hH2 _ _
        (by omega) (by omega) (by omega) (by omega),
      wrapIdx_sub1 x W (by omega), wrapIdx_sub1 y H (by omega),
      blinkVPred_iff W H x0 y0 _ _ (Nat.mod_lt _ (by omega)) (Nat.mod_lt _ (by omega)) hx0 hy0
        (by omega) (by omega),
      mod_shift_add x (W - 1) (W - x0) W, mod_shift_add y (H - 1) (H - y0) H]
  have a2 : ((mkGame (cellFn (blinkVPred W H x0 y0) W H) W H).is_alive_at
      ((x : Int) + -1) ((y : Int)) = true) ↔
      (((x + (W - x0)) % W + (W - 1)) % W = 1 ∧
        ((y + (H - y0)) % H = 0 ∨ (y + (H - y0)) % H = 1 ∨ (y + (H - y0)) % H = H - 1)) := by
    rw [is_alive_cellFn (blinkVPred W H x0 y0) W H (by omega) hW2 (by omega) hH2 _ _
        (by omega) (by omega) (by omega) (by omega),
      wrapIdx_sub1 x W (by omega), wrapIdx_self y H hy,
      blinkVPred_iff W H x0 y0 _ _ (Nat.mod_lt _ (by omega)) hy hx0 hy0 (by omega) (by omega),
      mod_shift_add x (W - 1) (W - x0) W]
  have a3 : ((mkGame (cellFn (blinkVPred W H x0 y0) W H) W H).is_alive_at
      ((x : Int) + -1) ((y : Int) + 1) = true) ↔
      (((x + (W - x0)) % W + (W - 1)) % W = 1 ∧
        (((y + (H - y0)) % H + 1) % H = 0 ∨ ((y + (H - y0)) % H + 1) % H = 1 ∨
          ((y + (H - y0)) % H + 1) % H = H - 1)) := by
    rw [is_alive_cellFn (blinkVPred W H x0 y0) W H (by omega) hW2 (by omega) hH2 _ _
        (by omega) (by omega) (by omega) (by omega),
      wrapIdx_sub1 x W (by omega), wrapIdx_add1 y H (by omega),
      blinkVPred_iff W H x0 y0 _ _ (Nat.mod_lt _ (by omega)) (Nat.mod_lt _ (by omega)) hx0 hy0
        (by omega) (by omega),
      mod_shift_add x (W - 1) (W - x0) W, mod_shift_add y 1 (H - y0) H]
  have a4 : ((mkGame (cellFn (blinkVPred W H x0 y0) W H) W H).is_alive_at
      ((x : Int)) ((y : Int) + -1) = true) ↔
      ((x + (W - x0)) % W = 1 ∧
        (((y + (H - y0)) % H + (H - 1)) % H = 0 ∨ ((y + (H - y0)) % H + (H - 1)) % H = 1 ∨
          ((y + (H - y0)) % H + (H - 1)) % H = H - 1)) := by
    rw [is_alive_cellFn (blinkVPred W H x0 y0) W H (by omega) hW2 (by omega) hH2 _ _
        (by omega) (by omega) (by omega) (by omega),
      wrapIdx_self x W hx, wrapIdx_sub1 y H (by omega),
      blinkVPred_iff W H x0 y0 _ _ hx (Nat.mod_lt _ (by omega)) hx0 hy0 (by omega) (by omega),
      mod_shift_add y (H - 1) (H - y0) H]
  have a5 : ((mkGame (cellFn (blinkVPred W H x0 y0) W H) W H).is_alive_at
      ((x : Int)) ((y : Int) + 1) = true) ↔
      ((x + (W - x0)) % W = 1 ∧
        (((y + (H - y0)) % H + 1) % H = 0 ∨ ((y + (H - y0)) % H + 1) % H = 1 ∨
          ((y + (H - y0)) % H + 1) % H = H - 1)) := by
    rw [is_alive_cellFn (blinkVPred W H x0 y0) W H (by omega) hW2 (by omega) hH2 _ _
        (by omega) (by omega) (by omega) (by omega),
      wrapIdx_self x W hx, wrapIdx_add1 y H (by omega),
      blinkVPred_iff W H x0 y0 _ _ hx (Nat.mod_lt _ (by omega)) hx0 hy0 (by omega) (by omega),
      mod_shift_add y 1 (H - y0) H]
  have a6 : ((mkGame (cellFn (blinkVPred W H x0 y0) W H) W H).is_alive_at
      ((x : Int) + 1) ((y : Int) + -1) = true) ↔
      (((x + (W - x0)) % W + 1) % W = 1 ∧
        (((y + (H - y0)) % H + (H - 1)) % H = 0 ∨ ((y + (H - y0)) % H + (H - 1)) % H = 1 ∨
          ((y + (H - y0)) % H + (H - 1)) % H = H - 1)) := by
    rw [is_alive_cellFn (blinkVPred W H x0 y0) W H (by omega) hW2 (by omega) hH2 _ _
        (by omega) (by omega) (by omega) (by omega),
      wrapIdx_add1 x W (by omega), wrapIdx_sub1 y H (by omega),
      blinkVPred_iff W H x0 y0 _ _ (Nat.mod_lt _ (by omega)) (Nat.mod_lt _ (by omega)) hx0 hy0
        (by omega) (by omega),
      mod_shift_add x 1 (W - x0) W, mod_shift_add y (H - 1) (H - y0) H]
  have a7 : ((mkGame (cellFn (blinkVPred W H x0 y0) W H) W H).is_alive_at
      ((x : Int) + 1) ((y : Int)) = true) ↔
      (((x + (W - x0)) % W + 1) % W = 1 ∧
        ((y + (H - y0)) % H = 0 ∨ (y + (H - y0)) % H = 1 ∨ (y + (H - y0)) % H = H - 1)) := by
    rw [is_alive_cellFn (blinkVPred W H x0 y0) W H (by omega) hW2 (by omega) hH2 _ _
        (by omega) (by omega) (by omega) (by omega),
      wrapIdx_add1 x W (by omega), wrapIdx_self y H hy,
      blinkVPred_iff W H x0 y0 _ _ (Nat.mod_lt _ (by omega)) hy hx0 hy0 (by omega) (by omega),
      mod_shift_add x 1 (W - x0) W]
  have a8 : ((mkGame (cellFn (blinkVPred W H x0 y0) W H) W H).is_alive_at
      ((x : Int) + 1) ((y : Int) + 1) = true) ↔
      (((x + (W - x0)) % W + 1) % W = 1 ∧
        (((y + (H - y0)) % H + 1) % H = 0 ∨ ((y + (H - y0)) % H + 1) % H = 1 ∨
          ((y + (H - y0)) % H + 1) % H = H - 1)) := by
    rw [is_alive_cellFn (blinkVPred W H x0 y0) W H (by omega) hW2 (by omega) hH2 _ _
        (by omega) (by omega) (by omega) (by omega),
      wrapIdx_add1 x W (by omega), wrapIdx_add1 y H (by omega),
      blinkVPred_iff W H x0 y0 _ _ (Nat.mod_lt _ (by omega)) (Nat.mod_lt _ (by omega)) hx0 hy0
        (by omega) (by omega),
      mod_shift_add x 1 (W - x0) W, mod_shift_add y 1 (H - y0) H]
  rw [blinkHPred_iff W H x0 y0 x y hx hy hx0 hy0 hW1]
  simp only [← List.countP_eq_length_filter, DIRECTIONS, List.countP_cons, List.countP_nil,
    add_zero]
  simp only [a0, a1, a2, a3, a4, a5, a6, a7, a8]
  have hu : (x + (W - x0)) % W < W := Nat.mod_lt _ (by omega)
  have hv : (y + (H - y0)) % H < H := Nat.mod_lt _ (by omega)
  simp only [relm1_eq_one ((x + (W - x0)) % W) W hu hW1,
    relp1_eq_one ((x + (W - x0)) % W) W hu hW1,
    relm1_eq_zero ((y + (H - y0)) % H) H hv hH1,
    relm1_eq_one ((y + (H - y0)) % H) H hv hH1,
    relm1_eq_last ((y + (H - y0)) % H) H hv hH1,
    relp1_eq_zero ((y + (H - y0)) % H) H hv hH1,
    relp1_eq_one ((y + (H - y0)) % H) H hv hH1,
    relp1_eq_last ((y + (H - y0)) % H) H hv hH1]
  clear a0 a1 a2 a3 a4 a5 a6 a7 a8
  by_cases hown : (x + (W - x0)) % W = 1 ∧
      ((y + (H - y0)) % H = 0 ∨ (y + (H - y0)) % H = 1 ∨ (y + (H - y0)) % H = H - 1)
  · rw [if_pos hown]
    simp only [Bool.or_eq_true, decide_eq_true_eq]
    split_ifs <;> omega
  · rw [if_neg hown]
    simp only [decide_eq_true_eq]
    split_ifs <;> omega

/-- C7 (amended): on a toroidal grid with both dimensions in `[5, 32768]`,
a horizontal blinker at any position becomes the corresponding vertical
blinker after one step (and nothing else is live), and a second step
restores the original horizontal blinker (period-2 oscillation). -/
theorem blinker_period_two (W H x0 y0 : Nat)
    (hW1 : 5 ≤ W) (hW2 : W ≤ 32768) (hH1 : 5 ≤ H) (hH2 : H ≤ 32768)
    (hx0 : x0 < W) (hy0 : y0 < H) :
    (mkGame (blinkerH W H x0 y0) W H).next_field = blinkerV W H x0 y0 ∧
    (mkGame (blinkerV W H x0 y0) W H).next_field = blinkerH W H x0 y0 :=
  ⟨blinkH_step W H x0 y0 hW1 hW2 hH1 hH2 hx0 hy0,
    blinkV_step W H x0 y0 hW1 hW2 hH1 hH2 hx0 hy0⟩

/-- Witness for C7 on a 5×5 grid with the blinker at (1, 2). -/
theorem blinker_period_two_witness :
    (5 ≤ 5) ∧
    ((mkGame (blinkerH 5 5 1 2) 5 5).next_field = blinkerV 5 5 1 2 ∧
      (mkGame (blinkerV 5 5 1 2) 5 5).next_field = blinkerH 5 5 1 2) :=
  ⟨by decide, blinker_period_two 5 5 1 2 (by decide) (by decide) (by decide) (by decide)
    (by decide) (by decide)⟩

/-- The lookup of the wide counterexample game, with the stored size
substituted. -/
theorem c7game_is_alive (x y : Int) :
    (mkGame (blinkerH 32769 5 32766 2) 32769 5).is_alive_at x y =
      cellAt (blinkerH 32769 5 32766 2) (u16cast (x + 32769) % 32769)
        (u16cast (y + 5) % 5) := rfl

/-- C7 counterexample: a horizontal blinker at columns 32766..32768, row
2, on a 32769×5 grid (≥ 5×5, all other cells dead).  The claimed vertical
segment after one step would contain the center (32767, 2), but the step
leaves it dead: the `i32 → u16` cast truncates `32767 + 32769 = 65536` to
0, so the lookups read columns 0/1 instead of 32767/32768. -/
theorem blinker_truncation_cex :
    cellAt (blinkerH 32769 5 32766 2) 32767 2 = true ∧
    cellAt (blinkerV 32769 5 32766 2) 32767 2 = true ∧
    cellAt ((mkGame (blinkerH 32769 5 32766 2) 32769 5).next_field) 32767 2 = false := by
  refine ⟨?_, ?_, ?_⟩
  · unfold blinkerH
    rw [cellAt_cellFn _ _ _ _ _ (by omega) (by omega)]
    decide
  · unfold blinkerV
    rw [cellAt_cellFn _ _ _ _ _ (by omega) (by omega)]
    decide
  · rw [cellAt_next_field (mkGame (blinkerH 32769 5 32766 2) 32769 5) 32767 2
      (by decide) (by decide)]
    have hcell : ∀ a b : Nat, a < 32769 → b < 5 →
        cellAt (blinkerH 32769 5 32766 2) a b = blinkHPred 32769 32766 2 a b := by
      intro a b ha hb
      unfold blinkerH
      rw [cellAt_cellFn _ _ _ _ _ ha hb]
    have hown : (mkGame (blinkerH 32769 5 32766 2) 32769 5).is_alive_at
        ((32767 : Nat) : Int) ((2 : Nat) : Int) = false := by
      rw [c7game_is_alive,
        show u16cast (((32767 : Nat) : Int) + 32769) % 32769 = 0 from by decide,
        show u16cast (((2 : Nat) : Int) + 5) % 5 = 2 from by decide,
        hcell 0 2 (by omega) (by omega)]
      decide
    rw [hown]
    simp only [Bool.false_eq_true, if_false, decide_eq_false_iff_not]
    have b1 : (mkGame (blinkerH 32769 5 32766 2) 32769 5).is_alive_at 32766 1 = false := by
      rw [c7game_is_alive,
        show u16cast ((32766 : Int) + 32769) % 32769 = 32766 from by decide,
        show u16cast ((1 : Int) + 5) % 5 = 1 from by decide,
        hcell 32766 1 (by omega) (by omega)]
      decide
    have b2 : (mkGame (blinkerH 32769 5 32766 2) 32769 5).is_alive_at 32766 2 = true := by
      rw [c7game_is_alive,
        show u16cast ((32766 : Int) + 32769) % 32769 = 32766 from by decide,
        show u16cast ((2 : Int) + 5) % 5 = 2 from by decide,
        hcell 32766 2 (by omega) (by omega)]
      decide
    have b3 : (mkGame (blinkerH 32769 5 32766 2) 32769 5).is_alive_at 32766 3 = false := by
      rw [c7game_is_alive,
        show u16cast ((32766 : Int) + 32769) % 32769 = 32766 from by decide,
        show u16cast ((3 : Int) + 5) % 5 = 3 from by decide,
        hcell 32766 3 (by omega) (by omega)]
      decide
    have b4 : (mkGame (blinkerH 32769 5 32766 2) 32769 5).is_alive_at 32767 1 = false := by
      rw [c7game_is_alive,
        show u16cast ((32767 : Int) + 32769) % 32769 = 0 from by decide,
        show u16cast ((1 : Int) + 5) % 5 = 1 from by decide,
        hcell 0 1 (by omega) (by omega)]
      decide
    have b5 : (mkGame (blinkerH 32769 5 32766 2) 32769 5).is_alive_at 32767 3 = false := by
      rw [c7game_is_alive,
        show u16cast ((32767 : Int) + 32769) % 32769 = 0 from by decide,
        show u16cast ((3 : Int) + 5) % 5 = 3 from by decide,
        hcell 0 3 (by omega) (by omega)]
      decide
    have b6 : (mkGame (blinkerH 32769 5 32766 2) 32769 5).is_alive_at 32768 1 = false := by
      rw [c7game_is_alive,
        show u16cast ((32768 : Int) + 32769) % 32769 = 1 from by decide,
        show u16cast ((1 : Int) + 5) % 5 = 1 from by decide,
        hcell 1 1 (by omega) (by omega)]
      decide
    have b7 : (mkGame (blinkerH 32769 5 32766 2) 32769 5).is_alive_at 32768 2 = false := by
      rw [c7game_is_alive,
        show u16cast ((32768 : Int) + 32769) % 32769 = 1 from by decide,
        show u16cast ((2 : Int) + 5) % 5 = 2 from by decide,
        hcell 1 2 (by omega) (by omega)]
      decide
    have b8 : (mkGame (blinkerH 32769 5 32766 2) 32769 5).is_alive_at 32768 3 = false := by
      rw [c7game_is_alive,
        show u16cast ((32768 : Int) + 32769) % 32769 = 1 from by decide,
        show u16cast ((3 : Int) + 5) % 5 = 3 from by decide,
        hcell 1 3 (by omega) (by omega)]
      decide
    have hlen : (DIRECTIONS.filter fun d =>
        (mkGame (blinkerH 32769 5 32766 2) 32769 5).is_alive_at
          (((32767 : Nat) : Int) + d.1) (((2 : Nat) : Int) + d.2)).length = 1 := by
      rw [← List.countP_eq_length_filter]
      simp only [DIRECTIONS, List.countP_cons, List.countP_nil]
      simp [b1, b2, b3, b4, b5, b6, b7, b8]
    rw [hlen]
    omega
